import Mathlib

/-!
# Verification of the Twitter/X posts automator core

Shallow embedding of the OAuth 1.0a request signer, the retrying
`twitter-post` IPC handler (Electron main process), and the browser-side
publish / scheduling logic (`App.jsx`), together with proofs of the
specified properties.

Sources embedded:
* `OAuth.percentEncode`, `OAuth.generateSignature` (identical in
  `src/App.jsx` and the Electron main file);
* the `ipcMain.handle('twitter-post')` retry loop of the main file;
* `postToTwitter`, `processCycle`, `startAutomation`, `stopAutomation`,
  `runAutomationCycle` from `src/App.jsx`.
-/

namespace TwitterAutomator

/-! ## Percent encoding

`OAuth.percentEncode` in the source is
`encodeURIComponent(str)` followed by five global single-character
replacements `! * ' ( )` → `%21 %2A %27 %28 %29`.

JavaScript's `encodeURIComponent` leaves exactly the characters
`A-Z a-z 0-9 - _ . ! ~ * ' ( )` unescaped and escapes every other
character as the uppercase-hex percent encoding of its UTF-8 bytes.
-/

/-- Uppercase hexadecimal digit for a nibble (as used by
`encodeURIComponent`, which emits uppercase hex). -/
def hexDigitChar (n : Nat) : Char :=
  "0123456789ABCDEF".data.getD n '0'

/-- UTF-8 bytes of a character (what `encodeURIComponent` percent-encodes). -/
def utf8Bytes (c : Char) : List Nat :=
  let n := c.toNat
  if n < 128 then [n]
  else if n < 2048 then [192 + n / 64, 128 + n % 64]
  else if n < 65536 then [224 + n / 4096, 128 + (n / 64) % 64, 128 + n % 64]
  else [240 + n / 262144, 128 + (n / 4096) % 64, 128 + (n / 64) % 64, 128 + n % 64]

/-- Percent-escape of one byte: `%XY` with uppercase hex. -/
def pctByte (b : Nat) : String :=
  ⟨['%', hexDigitChar (b / 16), hexDigitChar (b % 16)]⟩

/-- Percent-escape of one character: the concatenated escapes of its
UTF-8 bytes. -/
def pctEscape (c : Char) : String :=
  String.join ((utf8Bytes c).map pctByte)

/-- The RFC 3986 unreserved characters: letters, digits, `- . _ ~`. -/
def isUnreserved (c : Char) : Bool :=
  (('A' ≤ c && c ≤ 'Z') || ('a' ≤ c && c ≤ 'z') || ('0' ≤ c && c ≤ '9')
    || c = '-' || c = '.' || c = '_' || c = '~')

/-- The characters `encodeURIComponent` leaves unescaped:
letters, digits and `- _ . ~` (the RFC 3986 unreserved set), plus
`! * ' ( )`. -/
def isUriComponentSafe (c : Char) : Bool :=
  isUnreserved c || c = '!' || c = '*' || c = '\x27' || c = '(' || c = ')'

/-- JavaScript `encodeURIComponent`: safe characters pass through,
every other character is percent-escaped (UTF-8, uppercase hex). -/
def encodeURIComponent (s : String) : String :=
  String.join (s.data.map fun c =>
    if isUriComponentSafe c then String.singleton c else pctEscape c)

/-- JavaScript `str.replace(/c/g, r)` for a single-character pattern `c`:
every occurrence of `c` is replaced by `r`. -/
def replaceChar (c : Char) (r : String) (s : String) : String :=
  String.join (s.data.map fun d => if d = c then r else String.singleton d)

namespace OAuth

/-- The function `OAuth.percentEncode` (identical in `App.jsx` and the main file):
`encodeURIComponent` followed by the five replacements for `! * ' ( )`. -/
def percentEncode (s : String) : String :=
  replaceChar ')' "%29"
    (replaceChar '(' "%28"
      (replaceChar '\x27' "%27"
        (replaceChar '*' "%2A"
          (replaceChar '!' "%21"
            (encodeURIComponent s)))))

end OAuth

/-! ## HMAC-SHA1 and base64

`generateSignature` ends in `HMAC-SHA1(signingKey, signatureBase)` encoded
as base64 (WebCrypto `crypto.subtle.sign` in `App.jsx`, node
`crypto.createHmac('sha1', …)` in the main file — the same function).
We implement SHA-1 / HMAC / base64 executably over byte lists
(`Nat` values `< 256`), words as `Nat` reduced mod `2^32`. -/

/-- Truncate to a 32-bit word. -/
def w32 (n : Nat) : Nat := n % 4294967296

/-- Left-rotation of a 32-bit word by `s` bits. -/
def rotl (s n : Nat) : Nat := (n * 2 ^ s) % 4294967296 + n / 2 ^ (32 - s)

/-- SHA-1 padding: append `0x80`, zero bytes to 56 mod 64, then the
64-bit big-endian bit length. -/
def sha1Pad (msg : List Nat) : List Nat :=
  let len := msg.length
  let zeros := (119 - len % 64) % 64
  let bitLen := len * 8
  msg ++ [128] ++ List.replicate zeros 0 ++
    [bitLen / 2 ^ 56 % 256, bitLen / 2 ^ 48 % 256, bitLen / 2 ^ 40 % 256,
     bitLen / 2 ^ 32 % 256, bitLen / 2 ^ 24 % 256, bitLen / 2 ^ 16 % 256,
     bitLen / 2 ^ 8 % 256, bitLen % 256]

/-- Big-endian 4-byte groups to 32-bit words. -/
def bytesToWords : List Nat → List Nat
  | b0 :: b1 :: b2 :: b3 :: rest =>
      (((b0 * 256 + b1) * 256 + b2) * 256 + b3) :: bytesToWords rest
  | _ => []

/-- Split a word list into 16-word blocks (structural recursion on a
fuel argument so that the definition reduces in the kernel; the fuel
`ws.length` is always sufficient since every step consumes a word). -/
def toBlocksAux : Nat → List Nat → List (List Nat)
  | 0, _ => []
  | _, [] => []
  | fuel + 1, w :: ws => ((w :: ws).take 16) :: toBlocksAux fuel (ws.drop 15)

/-- Split a word list into 16-word blocks. -/
def toBlocks (ws : List Nat) : List (List Nat) :=
  toBlocksAux ws.length ws

/-- One step of the SHA-1 message-schedule extension; `acc` holds the
words produced so far, most recent first. -/
def schedStep (acc : List Nat) : List Nat :=
  rotl 1 (acc.getD 2 0 ^^^ acc.getD 7 0 ^^^ acc.getD 13 0 ^^^ acc.getD 15 0) :: acc

/-- The 80-word SHA-1 message schedule of one 16-word block. -/
def schedule (block : List Nat) : List Nat :=
  ((List.range 64).foldl (fun a _ => schedStep a) block.reverse).reverse

/-- One SHA-1 round: `st = (a, b, c, d, e)`, `iw = (round index, word)`. -/
def sha1Round (st : Nat × Nat × Nat × Nat × Nat) (iw : Nat × Nat) :
    Nat × Nat × Nat × Nat × Nat :=
  let (a, b, c, d, e) := st
  let (i, w) := iw
  let f :=
    if i < 20 then (b &&& c) ||| ((b ^^^ 4294967295) &&& d)
    else if i < 40 then b ^^^ c ^^^ d
    else if i < 60 then (b &&& c) ||| (b &&& d) ||| (c &&& d)
    else b ^^^ c ^^^ d
  let k :=
    if i < 20 then 1518500249
    else if i < 40 then 1859775393
    else if i < 60 then 2400959708
    else 3395469782
  let temp := w32 (rotl 5 a + f + e + k + w)
  (temp, a, rotl 30 b, c, d)

/-- SHA-1 compression of one block into the running hash state. -/
def sha1Block (h : Nat × Nat × Nat × Nat × Nat) (block : List Nat) :
    Nat × Nat × Nat × Nat × Nat :=
  let (h0, h1, h2, h3, h4) := h
  let (a, b, c, d, e) := (schedule block).enum.foldl sha1Round h
  (w32 (h0 + a), w32 (h1 + b), w32 (h2 + c), w32 (h3 + d), w32 (h4 + e))

/-- Big-endian bytes of a 32-bit word. -/
def wordBytes (w : Nat) : List Nat :=
  [w / 2 ^ 24 % 256, w / 2 ^ 16 % 256, w / 2 ^ 8 % 256, w % 256]

/-- SHA-1 of a byte list: the 20-byte digest. -/
def sha1 (msg : List Nat) : List Nat :=
  let init : Nat × Nat × Nat × Nat × Nat :=
    (1732584193, 4023233417, 2562383102, 271733878, 3285377520)
  let (h0, h1, h2, h3, h4) :=
    (toBlocks (bytesToWords (sha1Pad msg))).foldl sha1Block init
  wordBytes h0 ++ wordBytes h1 ++ wordBytes h2 ++ wordBytes h3 ++ wordBytes h4

/-- HMAC-SHA1 over byte lists. -/
def hmacSha1 (key msg : List Nat) : List Nat :=
  let k0 := if 64 < key.length then sha1 key else key
  let k := k0 ++ List.replicate (64 - k0.length) 0
  sha1 ((k.map fun b => b ^^^ 92) ++ sha1 ((k.map fun b => b ^^^ 54) ++ msg))

/-- The base64 alphabet. -/
def b64Char (n : Nat) : Char :=
  "ABCDEFGHIJKLMNOPQRSTUVWXYZabcdefghijklmnopqrstuvwxyz0123456789+/".data.getD n 'A'

/-- Standard base64 with `=` padding (what `btoa` / `digest('base64')`
produce). -/
def base64 : List Nat → String
  | [] => ""
  | [b0] =>
      ⟨[b64Char (b0 / 4), b64Char (b0 % 4 * 16), '=', '=']⟩
  | [b0, b1] =>
      ⟨[b64Char (b0 / 4), b64Char (b0 % 4 * 16 + b1 / 16),
        b64Char (b1 % 16 * 4), '=']⟩
  | b0 :: b1 :: b2 :: rest =>
      String.append
        ⟨[b64Char (b0 / 4), b64Char (b0 % 4 * 16 + b1 / 16),
          b64Char (b1 % 16 * 4 + b2 / 64), b64Char (b2 % 64)]⟩
        (base64 rest)

/-- UTF-8 bytes of a string (`TextEncoder` / node string-to-buffer). -/
def strBytes (s : String) : List Nat :=
  s.data.flatMap utf8Bytes

/-! ## The signature function

`OAuth.generateSignature(method, url, params, consumerSecret, tokenSecret)`
(same algorithm in `App.jsx` and the main file).  A JavaScript object's
enumeration order is its insertion order and its keys are distinct; we
embed `params` as an association list (the enumeration) whose keys are
assumed distinct where it matters. -/

/-- JavaScript `method.toUpperCase()` (ASCII; character-level map). -/
def charUpper (c : Char) : Char :=
  if 'a' ≤ c && c ≤ 'z' then Char.ofNat (c.toNat - 32) else c

/-- JavaScript `toUpperCase` over a string. -/
def upperStr (s : String) : String :=
  ⟨s.data.map charUpper⟩

/-- Join string parts with a separator (the source appends `&` after
every part but the last). -/
def joinSep (sep : String) (parts : List String) : String :=
  String.join (parts.intersperse sep)

/-- Lexicographic `≤` on character lists by code unit, the default
`Array.prototype.sort()` comparison JavaScript applies to
`Object.keys(params)` (all keys here are ASCII, where UTF-16 code-unit
order and code-point order agree). -/
def charsLe : List Char → List Char → Bool
  | [], _ => true
  | _ :: _, [] => false
  | a :: as, b :: bs => if a = b then charsLe as bs else decide (a.toNat < b.toNat)

/-- Lexicographic `≤` on strings (JS default sort order). -/
def keyLe (a b : String) : Bool := charsLe a.data b.data

/-- JavaScript property access `params[key]` on the association list:
the value of the (unique) entry with the given key. -/
def lookupStr (params : List (String × String)) (k : String) : String :=
  match params.find? (fun p => p.1 = k) with
  | some p => p.2
  | none => ""

namespace OAuth

/-- The function `OAuth.generateSignature`: sort the keys, join `key=percentEncode(value)`
with `&`, build the base string and signing key, HMAC-SHA1, base64. -/
def generateSignature (method url : String) (params : List (String × String))
    (consumerSecret tokenSecret : String) : String :=
  let sortedKeys := (params.map Prod.fst).insertionSort (fun a b => keyLe a b = true)
  let paramString := joinSep "&"
    (sortedKeys.map fun key => key ++ "=" ++ percentEncode (lookupStr params key))
  let signatureBase :=
    upperStr method ++ "&" ++ percentEncode url ++ "&" ++ percentEncode paramString
  let signingKey := percentEncode consumerSecret ++ "&" ++ percentEncode tokenSecret
  base64 (hmacSha1 (strBytes signingKey) (strBytes signatureBase))

end OAuth

/-- The per-character encoder the spec describes: unreserved characters
pass through, everything else (including `! * ' ( )`) is percent-escaped. -/
def specEncodeChar (c : Char) : String :=
  if isUnreserved c then String.singleton c else pctEscape c

/-- JavaScript `ToString` of a possibly-`undefined` string value:
`encodeURIComponent(undefined)` stringifies its argument, producing the
eight-character string `"undefined"`. -/
def jsToString : Option String → String
  | none => "undefined"
  | some s => s

/-- The encoder `OAuth.percentEncode` applied to a possibly-`undefined` value, with
JavaScript's coercion. -/
def percentEncodeJS (v : Option String) : String :=
  OAuth.percentEncode (jsToString v)

namespace OAuth

/-- The function `OAuth.generateSignature` as invoked with possibly-`undefined`
secrets (the function body performs no `undefined` check; the secrets
flow straight into `percentEncode`, where JavaScript coerces
`undefined` to the string `"undefined"`). -/
def generateSignatureJS (method url : String) (params : List (String × String))
    (consumerSecret tokenSecret : Option String) : String :=
  let sortedKeys := (params.map Prod.fst).insertionSort (fun a b => keyLe a b = true)
  let paramString := joinSep "&"
    (sortedKeys.map fun key => key ++ "=" ++ percentEncode (lookupStr params key))
  let signatureBase :=
    upperStr method ++ "&" ++ percentEncode url ++ "&" ++ percentEncode paramString
  let signingKey := percentEncodeJS consumerSecret ++ "&" ++ percentEncodeJS tokenSecret
  base64 (hmacSha1 (strBytes signingKey) (strBytes signatureBase))

end OAuth

/-- Character-list image of one `replace(/c/g, r)` pass. -/
def replData (c : Char) (r : List Char) (xs : List Char) : List Char :=
  (xs.map fun d => if d = c then r else [d]).flatten

/-- Character-list image of `encodeURIComponent` on one character. -/
def encCharL (c : Char) : List Char :=
  if isUriComponentSafe c then [c] else (pctEscape c).data

/-! ## The `twitter-post` IPC handler (Electron main process)

`ipcMain.handle('twitter-post', …)` destructures the four credentials,
rejects when any is missing/empty (JavaScript falsiness of the string),
then runs a `for (attempt = 1; attempt <= maxRetries; attempt++)` loop
with `maxRetries = 3` and `delay = 2000` doubling after each sleep.

Each iteration mints a fresh timestamp and nonce (`OAuth.getTimestamp()`
and `OAuth.getNonce()` are called inside the loop), signs, and fetches.
`getNonce`/`getTimestamp` read a random source and the clock, so the
embedding takes them as per-attempt oracles `nonce, ts : Nat → String`
indexed by the attempt number.  The network is an oracle
`outcome : Nat → FetchOutcome` giving each attempt's fetch result. -/

deriving instance DecidableEq for Except

/-- The four Twitter credentials as received by the handler. A missing
(`undefined`) credential behaves like `""` for the falsiness check. -/
structure Keys where
  consumerKey : String
  consumerSecret : String
  accessToken : String
  tokenSecret : String
deriving DecidableEq, Repr

/-- Result of one `fetch` of the Twitter endpoint: either a response
with an HTTP status (and whether `response.json()` parses), or a
thrown network error / 30s timeout abort. -/
inductive FetchOutcome where
  | resp (status : Nat) (jsonOk : Bool)
  | thrown
deriving DecidableEq, Repr

/-- The `oauthParams` object built each attempt (insertion order as in
the source; the final signature is not part of it). -/
structure OauthParams where
  oauth_consumer_key : String
  oauth_token : String
  oauth_signature_method : String
  oauth_timestamp : String
  oauth_nonce : String
  oauth_version : String
deriving DecidableEq, Repr

/-- The `oauthParams` object of one attempt. -/
def mkOauthParams (keys : Keys) (timestamp nonce : String) : OauthParams :=
  { oauth_consumer_key := keys.consumerKey
    oauth_token := keys.accessToken
    oauth_signature_method := "HMAC-SHA1"
    oauth_timestamp := timestamp
    oauth_nonce := nonce
    oauth_version := "1.0" }

/-- The association list the params object denotes (insertion order). -/
def OauthParams.toList (p : OauthParams) : List (String × String) :=
  [("oauth_consumer_key", p.oauth_consumer_key),
   ("oauth_token", p.oauth_token),
   ("oauth_signature_method", p.oauth_signature_method),
   ("oauth_timestamp", p.oauth_timestamp),
   ("oauth_nonce", p.oauth_nonce),
   ("oauth_version", p.oauth_version)]

/-- What one iteration of the `try` block does once the response (or
network throw) is known. -/
inductive AttemptResult where
  | success (data : String)
  | retryInTry
  | thrown (e : String)
deriving DecidableEq, Repr

/-- The `try` block of one attempt of the `twitter-post` loop, after
building and signing the request:
* fetch threw → the error propagates to `catch`;
* `!response.ok` and status in `[400,500)` except `429` → `throw` (the
  `// Don't retry on client errors` branch) — NOTE this `throw` is inside
  the `try`, so it lands in the same `catch` as network errors;
* `!response.ok` otherwise with attempts remaining → sleep-and-continue
  inside the `try`;
* `!response.ok` otherwise on the last attempt → `throw`;
* ok but `response.json()` fails → that error propagates to `catch`;
* ok → return the parsed data. -/
def attemptTry (outcome : FetchOutcome) (attempt maxRetries : Nat) : AttemptResult :=
  match outcome with
  | .thrown => .thrown "network error or timeout"
  | .resp status jsonOk =>
    if ¬ (200 ≤ status ∧ status < 300) then
      if 400 ≤ status ∧ status < 500 ∧ status ≠ 429 then
        .thrown ("Twitter API Error: " ++ toString status)
      else if attempt < maxRetries then
        .retryInTry
      else
        .thrown ("Twitter API Error: " ++ toString status)
    else if jsonOk then .success "tweet data" else .thrown "invalid json"

/-- Trace of one invocation of the `twitter-post` handler: the oauth
parameter sets of the requests actually sent (one per attempt), the
delays slept between attempts, and the final outcome. -/
structure HandlerTrace where
  requests : List OauthParams
  sleeps : List Nat
  result : Except String String
deriving DecidableEq, Repr

/-- The retry loop of the `twitter-post` handler.  `fuel` counts the
attempts still allowed (`maxRetries - attempt + 1` at entry, so the
recursion mirrors `for (attempt = 1; attempt <= maxRetries; attempt++)`).
Each iteration builds fresh `oauthParams` from that attempt's minted
timestamp and nonce, signs them (the signature feeds the Authorization
header of the request that is sent), fetches, and then follows
`attemptTry`; a `.thrown` lands in the `catch` block, which rethrows on
the last attempt and otherwise sleeps the current delay, doubles it, and
continues. -/
def twitterPostLoop (keys : Keys) (outcome : Nat → FetchOutcome)
    (nonce ts : Nat → String) (maxRetries : Nat) :
    Nat → Nat → Nat → List OauthParams → List Nat → HandlerTrace
  | 0, _, _, reqs, sleeps => ⟨reqs, sleeps, .error "loop exited"⟩
  | fuel + 1, attempt, delay, reqs, sleeps =>
    let oauthParams := mkOauthParams keys (ts attempt) (nonce attempt)
    let _signature := OAuth.generateSignature "POST" "https://api.twitter.com/2/tweets"
      oauthParams.toList keys.consumerSecret keys.tokenSecret
    let reqs := reqs ++ [oauthParams]
    match attemptTry (outcome attempt) attempt maxRetries with
    | .success d => ⟨reqs, sleeps, .ok d⟩
    | .retryInTry =>
        twitterPostLoop keys outcome nonce ts maxRetries
          fuel (attempt + 1) (delay * 2) reqs (sleeps ++ [delay])
    | .thrown e =>
        if attempt = maxRetries then ⟨reqs, sleeps, .error e⟩
        else
          twitterPostLoop keys outcome nonce ts maxRetries
            fuel (attempt + 1) (delay * 2) reqs (sleeps ++ [delay])

/-- The `twitter-post` handler: credential falsiness check (all four
must be non-empty, otherwise `throw new Error('Missing Twitter
Credentials')` before any signing or network call), then the retry loop
with `maxRetries = 3`, `delay = 2000`. -/
def twitterPostHandler (keys : Keys) (outcome : Nat → FetchOutcome)
    (nonce ts : Nat → String) : HandlerTrace :=
  if keys.consumerKey = "" ∨ keys.consumerSecret = ""
      ∨ keys.accessToken = "" ∨ keys.tokenSecret = "" then
    ⟨[], [], .error "Missing Twitter Credentials"⟩
  else
    twitterPostLoop keys outcome nonce ts 3 3 1 2000 [] []

/-! ## The browser-side publish path (`App.jsx`)

`postToTwitter` signs and fetches directly (no retry loop) and catches
every failure itself; `processCycle` runs generation then publication
and sets the observable `status`.  Generation (`generateText`) and the
network are external effects, embedded as oracles: the generation
outcome is an `Option String` (`null` on any caught generation error)
and the fetch outcome is an `RFetch`. -/

/-- Renderer configuration (the credential fields of `config`). -/
structure RendererConfig where
  twitterConsumerKey : String
  twitterConsumerSecret : String
  twitterAccessToken : String
  twitterTokenSecret : String
deriving DecidableEq, Repr

/-- Outcome of the renderer's `fetch` of the Twitter endpoint:
a response (HTTP status, whether `response.json()` parses, and the
`data.data.id` field when present), or a thrown network error. -/
inductive RFetch where
  | resp (status : Nat) (jsonOk : Bool) (tweetId : Option String)
  | thrown (msg : String)
deriving DecidableEq, Repr

/-- Observable trace of the renderer: the log list (newest first, as
`addLog` prepends), the current `status`, how many times
`openWebIntent` ran, and the oauth params passed to the signer, when
signing was attempted. -/
structure RenderTrace where
  logs : List (String × String)
  status : String
  intents : Nat
  sigAttempted : Option OauthParams
deriving DecidableEq, Repr

/-- The helper `addLog(source, message)` (prepends). -/
def addLog (st : RenderTrace) (source message : String) : RenderTrace :=
  { st with logs := (source, message) :: st.logs }

/-- The `setStatus` state setter. -/
def setStatus (st : RenderTrace) (s : String) : RenderTrace :=
  { st with status := s }

/-- The fallback `openWebIntent` (opens the pre-filled share intent). -/
def openWebIntent (st : RenderTrace) : RenderTrace :=
  { st with intents := st.intents + 1 }

/-- The body of `postToTwitter`'s `try` block after signing, as the
exception monad: a thrown/rejected value is `.error`.
* fetch rejection → that error;
* `!response.ok` with status `0`/`403`/`401` → `throw "CORS/Auth
  Error. Check proxy/keys."`;
* `!response.ok` otherwise → `throw "Twitter API Error: <status>"`;
* `response.json()` failure → that rejection;
* missing `data.data.id` → the `TypeError` from `data.data.id`;
* otherwise → the tweet id. -/
def postTryBody (fr : RFetch) : Except String String :=
  match fr with
  | .thrown m => .error m
  | .resp status jsonOk tweetId =>
    if ¬ (200 ≤ status ∧ status < 300) then
      if status = 0 ∨ status = 403 ∨ status = 401 then
        .error "CORS/Auth Error. Check proxy/keys."
      else
        .error ("Twitter API Error: " ++ toString status)
    else if ¬ jsonOk then .error "invalid json"
    else match tweetId with
      | some i => .ok i
      | none => .error "TypeError: Cannot read properties of undefined"

set_option linter.unusedVariables false in
/-- The function `postToTwitter(tweetText)`:
* only `twitterConsumerKey` and `twitterAccessToken` are checked for
  falsiness; when one is missing it logs and opens the web intent
  (no signing, no network call);
* otherwise it logs, sets status `posting`, builds `oauthParams`
  (fresh timestamp/nonce), calls `OAuth.generateSignature`, fetches,
  and on success logs the tweet id;
* every failure of the `try` block is caught: it is logged as
  `Failed: …` and, only when not automated, falls back to the web
  intent.  The function always returns normally. -/
def postToTwitter (cfg : RendererConfig) (isAutomated : Bool)
    (tweetText : String) (fr : RFetch) (nonce timestamp : String)
    (st : RenderTrace) : RenderTrace :=
  if cfg.twitterConsumerKey = "" ∨ cfg.twitterAccessToken = "" then
    let st := addLog st "Error" "Missing Twitter credentials. Opening Web Intent."
    openWebIntent st
  else
    let st := addLog st "Twitter" "Signing and posting tweet..."
    let st := setStatus st "posting"
    let oauthParams := mkOauthParams
      ⟨cfg.twitterConsumerKey, cfg.twitterConsumerSecret,
       cfg.twitterAccessToken, cfg.twitterTokenSecret⟩ timestamp nonce
    let _signature := OAuth.generateSignature "POST" "https://api.twitter.com/2/tweets"
      oauthParams.toList cfg.twitterConsumerSecret cfg.twitterTokenSecret
    let st := { st with sigAttempted := some oauthParams }
    match postTryBody fr with
    | .ok i => addLog st "Twitter" ("Success! Tweet ID: " ++ i)
    | .error m =>
      let st := addLog st "Twitter" ("Failed: " ++ m)
      if isAutomated then st else openWebIntent st

/-- JavaScript falsiness of `generateText`'s result (`null` or `""`). -/
def jsFalsy : Option String → Bool
  | none => true
  | some s => s = ""

/-- The function `processCycle(selectedTopic)`: status `generating`, generation
(outcome `genText`), on falsy text status `error` and stop; otherwise
(after the 2s `setTimeout`) `postToTwitter`, then status `waiting`
when automated and `success` when manual — regardless of the publish
outcome. -/
def processCycle (cfg : RendererConfig) (isAutomated : Bool)
    (genText : Option String) (fr : RFetch) (nonce timestamp : String)
    (st : RenderTrace) : RenderTrace :=
  let st := setStatus st "generating"
  if jsFalsy genText then
    setStatus st "error"
  else
    let st := postToTwitter cfg isAutomated (genText.getD "") fr nonce timestamp st
    if isAutomated then setStatus st "waiting" else setStatus st "success"

/-- The initial renderer trace (`status: 'idle'`, no logs). -/
def initialRenderTrace : RenderTrace :=
  { logs := [], status := "idle", intents := 0, sigAttempted := none }

/-! ## The scheduler (`startAutomation` / `stopAutomation`)

Timer lifecycle model: `setInterval` allocates a fresh timer handle and
arms it; `clearInterval` disarms.  `timerRef`/`countdownRef` are the
`useRef` cells.  The cycle body triggered by each firing is not part of
the timer-lifecycle state (`runAutomationCycle`'s call of `processCycle`
is elided here; its timer manipulation — clearing and re-arming the
countdown — is kept). -/

/-- Kind of armed timer: the 40-minute main interval or the 1-second
countdown interval. -/
inductive TimerKind where
  | main
  | countdown
deriving DecidableEq, Repr

/-- Scheduler state: fresh-handle counter, armed timers, the two refs,
and the `isAutomated` flag. -/
structure SchedState where
  nextId : Nat
  active : List (Nat × TimerKind)
  timerRef : Option Nat
  countdownRef : Option Nat
  isAutomated : Bool
deriving DecidableEq, Repr

/-- JavaScript `setInterval(cb, ms)`: arm a fresh timer, return its handle. -/
def setIntervalT (k : TimerKind) (st : SchedState) : Nat × SchedState :=
  (st.nextId,
   { st with nextId := st.nextId + 1, active := st.active ++ [(st.nextId, k)] })

/-- JavaScript `clearInterval(id)` (a no-op on a stale handle, as in JS). -/
def clearIntervalT (id : Nat) (st : SchedState) : SchedState :=
  { st with active := st.active.filter (fun p => p.1 ≠ id) }

/-- The timer bookkeeping of `runAutomationCycle`: clear the previous
countdown if any and arm a fresh 1-second countdown interval
(the call of `processCycle` and the next-run timestamp are elided). -/
def runAutomationCycleS (st : SchedState) : SchedState :=
  let st :=
    match st.countdownRef with
    | some id => clearIntervalT id st
    | none => st
  let (cid, st) := setIntervalT .countdown st
  { st with countdownRef := some cid }

/-- The function `startAutomation()`: return early when the topic list is empty;
otherwise set `isAutomated`, run one cycle immediately, and arm the
repeating 40-minute interval, storing its handle in `timerRef`.
There is no check that automation is already running. -/
def startAutomation (topics : List String) (st : SchedState) : SchedState :=
  if topics.length = 0 then st
  else
    let st := { st with isAutomated := true }
    let st := runAutomationCycleS st
    let (tid, st) := setIntervalT .main st
    { st with timerRef := some tid }

/-- The function `stopAutomation()`: clear the interval behind `timerRef` and the
countdown behind `countdownRef` when set, reset `isAutomated` (the refs
themselves are not nulled in the source; clearing a stale handle is a
no-op). -/
def stopAutomation (st : SchedState) : SchedState :=
  let st :=
    match st.timerRef with
    | some id => clearIntervalT id st
    | none => st
  let st :=
    match st.countdownRef with
    | some id => clearIntervalT id st
    | none => st
  { st with isAutomated := false }

/-- The initial scheduler state (`useRef(null)`, not automated). -/
def initialSchedState : SchedState :=
  { nextId := 0, active := [], timerRef := none, countdownRef := none,
    isAutomated := false }

/-- The armed main-interval timers of a scheduler state. -/
def mainTimers (st : SchedState) : List (Nat × TimerKind) :=
  st.active.filter (fun p => p.2 = TimerKind.main)

/-! # Theorems -/

/-! ## C2: percent encoding -/

theorem data_join (l : List String) :
    (String.join l).data = (l.map String.data).flatten := by
  have aux : ∀ (l : List String) (a : String),
      (l.foldl (fun r s => r ++ s) a).data = a.data ++ (l.map String.data).flatten := by
    intro l
    induction l with
    | nil => intro a; simp
    | cons s t ih =>
      intro a
      simp [List.foldl_cons, ih, String.data_append]
  simp [String.join, aux l ""]

theorem data_singleton (c : Char) : (String.singleton c).data = [c] := rfl

theorem data_replaceChar (c : Char) (r s : String) :
    (replaceChar c r s).data = replData c r.data s.data := by
  simp only [replaceChar, data_join, List.map_map]
  rw [show (String.data ∘ fun d => if d = c then r else String.singleton d)
      = (fun d => if d = c then r.data else [d]) from funext fun d => by
        by_cases h : d = c <;> simp [h, data_singleton]]
  rfl

theorem data_encodeURIComponent (s : String) :
    (encodeURIComponent s).data = (s.data.map encCharL).flatten := by
  simp only [encodeURIComponent, data_join, List.map_map]
  rw [show (String.data ∘ fun c =>
        if isUriComponentSafe c then String.singleton c else pctEscape c) = encCharL
      from funext fun d => by
        by_cases h : isUriComponentSafe d <;> simp [encCharL, h, data_singleton]]

theorem replData_append (c : Char) (r xs ys : List Char) :
    replData c r (xs ++ ys) = replData c r xs ++ replData c r ys := by
  simp [replData]

theorem replData_flatten_map {α : Type} (c : Char) (r : List Char)
    (f : α → List Char) (l : List α) :
    replData c r ((l.map f).flatten) = (l.map fun x => replData c r (f x)).flatten := by
  induction l with
  | nil => simp [replData]
  | cons x t ih => simp [replData_append, ih]

theorem replData_of_not_mem (c : Char) (r : List Char) (xs : List Char)
    (h : c ∉ xs) : replData c r xs = xs := by
  induction xs with
  | nil => simp [replData]
  | cons x t ih =>
    simp only [List.mem_cons, not_or] at h
    have hx : x ≠ c := fun e => h.1 e.symm
    simp only [replData, List.map_cons, List.flatten_cons, if_neg hx]
    have := ih h.2
    simp only [replData] at this
    simp [this]

theorem hexDigitChar_mem (n : Nat) :
    hexDigitChar n ∈ "0123456789ABCDEF".data := by
  unfold hexDigitChar
  by_cases h : n < "0123456789ABCDEF".data.length
  · rw [List.getD_eq_getElem _ _ h]
    exact List.getElem_mem h
  · rw [List.getD_eq_default _ _ (by omega)]
    decide

theorem data_pctByte (b : Nat) :
    (pctByte b).data = ['%', hexDigitChar (b / 16), hexDigitChar (b % 16)] := rfl

theorem pctEscape_chars (c : Char) (x : Char) (hx : x ∈ (pctEscape c).data) :
    x = '%' ∨ x ∈ "0123456789ABCDEF".data := by
  simp only [pctEscape, data_join, List.map_map, List.mem_flatten, List.mem_map] at hx
  obtain ⟨piece, ⟨b, _, rfl⟩, hxp⟩ := hx
  simp only [Function.comp_apply, data_pctByte, List.mem_cons,
    List.mem_singleton, List.not_mem_nil, or_false] at hxp
  rcases hxp with rfl | rfl | rfl
  · exact Or.inl rfl
  · exact Or.inr (hexDigitChar_mem _)
  · exact Or.inr (hexDigitChar_mem _)

theorem pct_chars_not_special (c : Char) (x : Char) (hx : x ∈ (pctEscape c).data) :
    x ≠ '!' ∧ x ≠ '*' ∧ x ≠ '\x27' ∧ x ≠ '(' ∧ x ≠ ')' := by
  have h := pctEscape_chars c x hx
  have hall : ∀ y ∈ ('%' :: "0123456789ABCDEF".data),
      y ≠ '!' ∧ y ≠ '*' ∧ y ≠ '\x27' ∧ y ≠ '(' ∧ y ≠ ')' := by decide
  rcases h with rfl | h
  · exact hall _ (by simp)
  · exact hall _ (by simp [h])

/-- The five replacement passes applied to the `encodeURIComponent`
image of one character yield the spec's per-character encoding. -/
theorem repl5_encCharL (d : Char) :
    replData ')' ['%', '2', '9'] (replData '(' ['%', '2', '8']
      (replData '\x27' ['%', '2', '7'] (replData '*' ['%', '2', 'A']
        (replData '!' ['%', '2', '1'] (encCharL d)))))
    = (specEncodeChar d).data := by
  by_cases hb : d = '!'
  · subst hb; decide
  by_cases hs : d = '*'
  · subst hs; decide
  by_cases hq : d = '\x27'
  · subst hq; decide
  by_cases hp : d = '('
  · subst hp; decide
  by_cases hr : d = ')'
  · subst hr; decide
  by_cases hu : isUnreserved d
  · have hsafe : isUriComponentSafe d = true := by
      simp [isUriComponentSafe, hu]
    have hone : encCharL d = [d] := by simp [encCharL, hsafe]
    rw [hone]
    have step : ∀ (c : Char) (r : List Char), d ≠ c → replData c r [d] = [d] := by
      intro c r hc
      simp [replData, if_neg hc]
    rw [step _ _ hb, step _ _ hs, step _ _ hq, step _ _ hp, step _ _ hr]
    simp [specEncodeChar, hu, data_singleton]
  · have hsafe : isUriComponentSafe d = false := by
      simp [isUriComponentSafe, hu, hb, hs, hq, hp, hr]
    have hesc : encCharL d = (pctEscape d).data := by simp [encCharL, hsafe]
    rw [hesc]
    have h1 : ('!' : Char) ∉ (pctEscape d).data := fun hmem =>
      (pct_chars_not_special d _ hmem).1 rfl
    have h2 : ('*' : Char) ∉ (pctEscape d).data := fun hmem =>
      (pct_chars_not_special d _ hmem).2.1 rfl
    have h3 : ('\x27' : Char) ∉ (pctEscape d).data := fun hmem =>
      (pct_chars_not_special d _ hmem).2.2.1 rfl
    have h4 : ('(' : Char) ∉ (pctEscape d).data := fun hmem =>
      (pct_chars_not_special d _ hmem).2.2.2.1 rfl
    have h5 : (')' : Char) ∉ (pctEscape d).data := fun hmem =>
      (pct_chars_not_special d _ hmem).2.2.2.2 rfl
    rw [replData_of_not_mem _ _ _ h1, replData_of_not_mem _ _ _ h2,
        replData_of_not_mem _ _ _ h3, replData_of_not_mem _ _ _ h4,
        replData_of_not_mem _ _ _ h5]
    simp [specEncodeChar, hu]

/-- C2: `percentEncode` escapes `! * ' ( )` in addition to the RFC 3986
reserved set, leaving exactly the unreserved characters (letters,
digits, `- . _ ~`) unescaped — character by character it equals the
spec's encoder `specEncodeChar` — and encoding `"a!b*c'd(e)f"` yields
`"a%21b%2Ac%27d%28e%29f"`. -/
theorem c2_percentEncode_escapes_extended_set :
    (∀ s : String, OAuth.percentEncode s = String.join (s.data.map specEncodeChar))
    ∧ OAuth.percentEncode "a!b*c'd(e)f" = "a%21b%2Ac%27d%28e%29f" := by
  constructor
  · intro s
    apply String.ext
    rw [data_join, List.map_map]
    show (replaceChar ')' "%29" _).data = _
    rw [data_replaceChar, data_replaceChar, data_replaceChar, data_replaceChar,
        data_replaceChar, data_encodeURIComponent]
    rw [replData_flatten_map, replData_flatten_map, replData_flatten_map,
        replData_flatten_map, replData_flatten_map]
    rw [show (fun x => replData ')' "%29".data (replData '(' "%28".data
        (replData '\x27' "%27".data (replData '*' "%2A".data
          (replData '!' "%21".data (encCharL x))))))
        = (String.data ∘ specEncodeChar) from funext fun d => repl5_encCharL d]
  · decide

/-! ## C4: signature invariance under enumeration order -/

theorem charNat_inj {a b : Char} (h : a.toNat = b.toNat) : a = b :=
  Char.ext (UInt32.ext h)

theorem charsLe_total : ∀ as bs : List Char,
    charsLe as bs = true ∨ charsLe bs as = true := by
  intro as
  induction as with
  | nil => intro bs; left; simp [charsLe]
  | cons a as ih =>
    intro bs
    cases bs with
    | nil => right; simp [charsLe]
    | cons b bs =>
      by_cases hab : a = b
      · subst hab
        simp only [charsLe, if_pos rfl]
        exact ih bs
      · have hn : a.toNat ≠ b.toNat := fun e => hab (charNat_inj e)
        rcases Nat.lt_or_ge a.toNat b.toNat with h | h
        · left
          simp [charsLe, if_neg hab, h]
        · right
          have hba : b ≠ a := fun e => hab e.symm
          have : b.toNat < a.toNat := lt_of_le_of_ne h (Ne.symm hn)
          simp [charsLe, if_neg hba, this]

theorem charsLe_trans : ∀ as bs cs : List Char,
    charsLe as bs = true → charsLe bs cs = true → charsLe as cs = true := by
  intro as
  induction as with
  | nil => intro bs cs _ _; simp [charsLe]
  | cons a as ih =>
    intro bs cs h1 h2
    cases bs with
    | nil => simp [charsLe] at h1
    | cons b bs =>
      cases cs with
      | nil => simp [charsLe] at h2
      | cons c cs =>
        by_cases hab : a = b <;> by_cases hbc : b = c
        · subst hab; subst hbc
          simp only [charsLe, if_pos rfl] at h1 h2 ⊢
          exact ih bs cs h1 h2
        · subst hab
          simp only [charsLe, if_pos rfl] at h1
          simp only [charsLe, if_neg hbc] at h2 ⊢
          exact h2
        · subst hbc
          simp only [charsLe, if_neg hab] at h1
          simp only [charsLe, if_neg hab] at *
          exact h1
        · simp only [charsLe, if_neg hab] at h1
          simp only [charsLe, if_neg hbc] at h2
          have hlt : a.toNat < c.toNat :=
            Nat.lt_trans (of_decide_eq_true h1) (of_decide_eq_true h2)
          have hac : a ≠ c := fun e => Nat.lt_irrefl _ (e ▸ hlt)
          simp [charsLe, if_neg hac, hlt]

theorem charsLe_antisymm : ∀ as bs : List Char,
    charsLe as bs = true → charsLe bs as = true → as = bs := by
  intro as
  induction as with
  | nil =>
    intro bs _ h2
    cases bs with
    | nil => rfl
    | cons b bs => simp [charsLe] at h2
  | cons a as ih =>
    intro bs h1 h2
    cases bs with
    | nil => simp [charsLe] at h1
    | cons b bs =>
      by_cases hab : a = b
      · subst hab
        simp only [charsLe, if_pos rfl] at h1 h2
        rw [ih bs h1 h2]
      · have hba : b ≠ a := fun e => hab e.symm
        simp only [charsLe, if_neg hab] at h1
        simp only [charsLe, if_neg hba] at h2
        exact absurd (of_decide_eq_true h1)
          (Nat.not_lt.mpr (Nat.le_of_lt (of_decide_eq_true h2)))

instance keyLeIsTotal : IsTotal String (fun a b => keyLe a b = true) :=
  ⟨fun a b => charsLe_total a.data b.data⟩

instance keyLeIsTrans : IsTrans String (fun a b => keyLe a b = true) :=
  ⟨fun a b c => charsLe_trans a.data b.data c.data⟩

instance keyLeIsAntisymm : IsAntisymm String (fun a b => keyLe a b = true) :=
  ⟨fun a b h1 h2 => String.ext (charsLe_antisymm a.data b.data h1 h2)⟩

/-- Two members of a list with `Nodup` keys that share a key are equal. -/
theorem eq_of_mem_nodup_keys {l : List (String × String)}
    (hnd : (l.map Prod.fst).Nodup) {x y : String × String}
    (hx : x ∈ l) (hy : y ∈ l) (hk : x.1 = y.1) : x = y :=
  List.inj_on_of_nodup_map hnd hx hy hk

/-- Lookup `params[key]` is invariant under permuting an association list with
distinct keys. -/
theorem lookupStr_perm {p1 p2 : List (String × String)} (hperm : p1.Perm p2)
    (hnd : (p1.map Prod.fst).Nodup) (k : String) :
    lookupStr p1 k = lookupStr p2 k := by
  unfold lookupStr
  cases h1 : p1.find? (fun p => p.1 = k) with
  | none =>
    cases h2 : p2.find? (fun p => p.1 = k) with
    | none => rfl
    | some y =>
      have hy := List.find?_some h2
      have hmem : y ∈ p1 := hperm.symm.subset (List.mem_of_find?_eq_some h2)
      have := List.find?_eq_none.mp h1 y hmem
      exact absurd hy this
  | some x =>
    have hx := List.find?_some h1
    have hxm : x ∈ p2 := hperm.subset (List.mem_of_find?_eq_some h1)
    cases h2 : p2.find? (fun p => p.1 = k) with
    | none =>
      exact absurd hx (List.find?_eq_none.mp h2 x hxm)
    | some y =>
      have hy := List.find?_some h2
      have hym : y ∈ p1 := hperm.symm.subset (List.mem_of_find?_eq_some h2)
      have hkx : x.1 = k := of_decide_eq_true hx
      have hky : y.1 = k := of_decide_eq_true hy
      rw [eq_of_mem_nodup_keys hnd (hperm.symm.subset hxm) hym (hkx.trans hky.symm)]

/-- C4: for every parameter map and every permutation of its enumeration
order, the sorted parameter string — and hence the signature returned by
`generateSignature` — is identical: `sign` is invariant under permuting
the input map's enumeration order (a JavaScript object has distinct
keys, embodied by the `Nodup` hypothesis). -/
theorem c4_generateSignature_perm_invariant (method url cs ts : String)
    (p1 p2 : List (String × String)) (hperm : p1.Perm p2)
    (hnd : (p1.map Prod.fst).Nodup) :
    OAuth.generateSignature method url p1 cs ts
      = OAuth.generateSignature method url p2 cs ts := by
  unfold OAuth.generateSignature
  have hkeys : (p1.map Prod.fst).insertionSort (fun a b => keyLe a b = true)
      = (p2.map Prod.fst).insertionSort (fun a b => keyLe a b = true) := by
    apply List.eq_of_perm_of_sorted
      (r := fun a b => keyLe a b = true)
    · exact ((List.perm_insertionSort _ _).trans (hperm.map Prod.fst)).trans
        (List.perm_insertionSort _ _).symm
    · exact List.sorted_insertionSort _ _
    · exact List.sorted_insertionSort _ _
  rw [hkeys]
  have hlook : ∀ k, lookupStr p1 k = lookupStr p2 k := lookupStr_perm hperm hnd
  simp only [hlook]

/-- Witness for C4 at a concrete permuted pair of parameter lists. -/
theorem c4_generateSignature_perm_invariant_witness :
    ([("oauth_token", "at"), ("oauth_consumer_key", "ck")] : List (String × String)).Perm
        [("oauth_consumer_key", "ck"), ("oauth_token", "at")]
    ∧ OAuth.generateSignature "POST" "u"
        [("oauth_token", "at"), ("oauth_consumer_key", "ck")] "cs" "ts"
      = OAuth.generateSignature "POST" "u"
        [("oauth_consumer_key", "ck"), ("oauth_token", "at")] "cs" "ts" :=
  ⟨by decide,
   c4_generateSignature_perm_invariant "POST" "u" "cs" "ts" _ _ (by decide) (by decide)⟩

/-! ## C9: undefined secrets -/

/-- C9 (amended): `generateSignature` never fails on `undefined` secrets
(the embedding is a total function), and the signing key always contains
the `&` separator; but an `undefined` secret is NOT treated as the empty
string — JavaScript's `encodeURIComponent` coerces `undefined` to the
eight-character string `"undefined"`, so signing with an `undefined`
secret equals signing with the literal string `"undefined"`. -/
theorem c9_sign_undefined_is_undefined_string (method url : String)
    (params : List (String × String)) (cs ts : String) :
    (OAuth.generateSignatureJS method url params none (some ts)
      = OAuth.generateSignature method url params "undefined" ts)
    ∧ (OAuth.generateSignatureJS method url params (some cs) none
      = OAuth.generateSignature method url params cs "undefined")
    ∧ (OAuth.generateSignatureJS method url params none none
      = OAuth.generateSignature method url params "undefined" "undefined")
    ∧ (∀ c t : Option String,
        percentEncodeJS c ++ "&" ++ percentEncodeJS t
          = OAuth.percentEncode (jsToString c) ++ "&" ++ OAuth.percentEncode (jsToString t)) :=
  ⟨rfl, rfl, rfl, fun _ _ => rfl⟩

set_option maxRecDepth 100000 in
/-- C9 counterexample: at a concrete input, signing with an `undefined`
consumer secret does not equal signing with the empty-string consumer
secret (the keys differ: `undefined&ts` vs `&ts`), refuting the claim
that `sign(method, url, params, undefined, ts) = sign(method, url,
params, "", ts)`. -/
theorem c9_undefined_ne_empty_counterexample :
    OAuth.generateSignatureJS "POST" "https://api.twitter.com/2/tweets" [] none (some "ts")
      ≠ OAuth.generateSignatureJS "POST" "https://api.twitter.com/2/tweets" []
          (some "") (some "ts") := by
  decide

/-! ## C1, C3, C5, C7: the `twitter-post` handler -/

/-- C1 (code bug): the source comment says `// Don't retry on client
errors (4xx) except maybe 429`, and the spec says a `401` must result in
exactly 1 attempt with the error propagated immediately; but the
`throw` for the 4xx case sits inside the `try` block, so the loop's own
`catch` catches it and — with attempts remaining — sleeps and retries.
A mock endpoint returning `401` yields 3 attempts with sleeps of 2000ms
and 4000ms, not 1 attempt with no sleep. -/
theorem c1_client_error_is_retried_bug :
    ((twitterPostHandler ⟨"ck", "cs", "at", "ts"⟩ (fun _ => .resp 401 true)
        (fun n => toString n) (fun _ => "1700000000")).requests.length = 3)
    ∧ ((twitterPostHandler ⟨"ck", "cs", "at", "ts"⟩ (fun _ => .resp 401 true)
        (fun n => toString n) (fun _ => "1700000000")).sleeps = [2000, 4000])
    ∧ ((twitterPostHandler ⟨"ck", "cs", "at", "ts"⟩ (fun _ => .resp 401 true)
        (fun n => toString n) (fun _ => "1700000000")).result
          = .error "Twitter API Error: 401") := by
  decide

/-- C3: with the default policy (`maxRetries = 3`, base delay 2000ms,
multiplier 2), two retryable failures (503) followed by a 2xx response
succeed with exactly 3 attempts, sleeping 2000ms before attempt 2 and
4000ms before attempt 3. -/
theorem c3_default_retry_policy (keys : Keys) (outcome : Nat → FetchOutcome)
    (nonce ts : Nat → String) (s : Nat)
    (hck : keys.consumerKey ≠ "") (hcs : keys.consumerSecret ≠ "")
    (hat : keys.accessToken ≠ "") (hts : keys.tokenSecret ≠ "")
    (h1 : outcome 1 = .resp 503 true) (h2 : outcome 2 = .resp 503 true)
    (h3 : outcome 3 = .resp s true) (hs1 : 200 ≤ s) (hs2 : s < 300) :
    (twitterPostHandler keys outcome nonce ts).requests.length = 3
    ∧ (twitterPostHandler keys outcome nonce ts).sleeps = [2000, 4000]
    ∧ (twitterPostHandler keys outcome nonce ts).result = .ok "tweet data" := by
  have hcond : ¬(keys.consumerKey = "" ∨ keys.consumerSecret = ""
      ∨ keys.accessToken = "" ∨ keys.tokenSecret = "") := by
    simp [hck, hcs, hat, hts]
  simp only [twitterPostHandler, if_neg hcond]
  simp [twitterPostLoop, h1, h2, h3, attemptTry, hs1, hs2]

/-- Witness for C3: a mock endpoint answering 503, 503, 200. -/
theorem c3_default_retry_policy_witness :
    (twitterPostHandler ⟨"ck", "cs", "at", "ts"⟩
        (fun a => if a ≤ 2 then .resp 503 true else .resp 200 true)
        (fun n => toString n) (fun _ => "1700000000")).requests.length = 3
    ∧ (twitterPostHandler ⟨"ck", "cs", "at", "ts"⟩
        (fun a => if a ≤ 2 then .resp 503 true else .resp 200 true)
        (fun n => toString n) (fun _ => "1700000000")).sleeps = [2000, 4000]
    ∧ (twitterPostHandler ⟨"ck", "cs", "at", "ts"⟩
        (fun a => if a ≤ 2 then .resp 503 true else .resp 200 true)
        (fun n => toString n) (fun _ => "1700000000")).result = .ok "tweet data" :=
  c3_default_retry_policy ⟨"ck", "cs", "at", "ts"⟩
    (fun a => if a ≤ 2 then .resp 503 true else .resp 200 true)
    (fun n => toString n) (fun _ => "1700000000") 200
    (by decide) (by decide) (by decide) (by decide)
    (by decide) (by decide) (by decide) (by decide) (by decide)

/-- The requests sent by the retry loop: one per attempt, each built
from the timestamp and nonce minted in that iteration. -/
theorem twitterPostLoop_requests_spec (keys : Keys) (outcome : Nat → FetchOutcome)
    (nonce ts : Nat → String) (maxR : Nat) :
    ∀ (fuel attempt delay : Nat) (reqs : List OauthParams) (sleeps : List Nat),
      ∃ n, (twitterPostLoop keys outcome nonce ts maxR fuel attempt delay reqs sleeps).requests
        = reqs ++ (List.range n).map
            (fun j => mkOauthParams keys (ts (attempt + j)) (nonce (attempt + j))) := by
  intro fuel
  induction fuel with
  | zero =>
    intro attempt delay reqs sleeps
    exact ⟨0, by simp [twitterPostLoop]⟩
  | succ f ih =>
    intro attempt delay reqs sleeps
    have hshift : ∀ n : Nat,
        (List.range (n + 1)).map
            (fun j => mkOauthParams keys (ts (attempt + j)) (nonce (attempt + j)))
          = mkOauthParams keys (ts attempt) (nonce attempt)
            :: (List.range n).map
                (fun j => mkOauthParams keys (ts (attempt + 1 + j)) (nonce (attempt + 1 + j))) := by
      intro n
      rw [List.range_succ_eq_map, List.map_cons, List.map_map]
      have harg : (fun j => mkOauthParams keys (ts (attempt + j)) (nonce (attempt + j))) ∘ Nat.succ
          = fun j => mkOauthParams keys (ts (attempt + 1 + j)) (nonce (attempt + 1 + j)) := by
        funext j
        have : attempt + (j + 1) = attempt + 1 + j := by omega
        simp [Function.comp, Nat.succ_eq_add_one, this]
      rw [harg, Nat.add_zero]
    simp only [twitterPostLoop]
    cases hA : attemptTry (outcome attempt) attempt maxR with
    | success d =>
      exact ⟨1, by simp [hshift 0]⟩
    | retryInTry =>
      obtain ⟨n, hn⟩ := ih (attempt + 1) (delay * 2)
        (reqs ++ [mkOauthParams keys (ts attempt) (nonce attempt)]) (sleeps ++ [delay])
      exact ⟨n + 1, by simp [hn, hshift n]⟩
    | thrown e =>
      by_cases hm : attempt = maxR
      · refine ⟨1, ?_⟩
        have : List.range 1 = [0] := rfl
        simp [hm, this]
      · obtain ⟨n, hn⟩ := ih (attempt + 1) (delay * 2)
          (reqs ++ [mkOauthParams keys (ts attempt) (nonce attempt)]) (sleeps ++ [delay])
        exact ⟨n + 1, by simp [hm, hn, hshift n]⟩

/-- The requests of one handler invocation are exactly the per-attempt
freshly built parameter sets. -/
theorem twitterPostHandler_requests_spec (keys : Keys)
    (outcome : Nat → FetchOutcome) (nonce ts : Nat → String) :
    ∃ n, (twitterPostHandler keys outcome nonce ts).requests
      = (List.range n).map
          (fun j => mkOauthParams keys (ts (1 + j)) (nonce (1 + j))) := by
  unfold twitterPostHandler
  split
  · exact ⟨0, by simp⟩
  · obtain ⟨n, hn⟩ := twitterPostLoop_requests_spec keys outcome nonce ts 3 3 1 2000 [] []
    refine ⟨n, ?_⟩
    rw [hn]
    simp [Nat.add_comm 1]

/-- C5: every attempt of the publish call builds a fresh request —
the request of attempt `j + 1` carries exactly the nonce and timestamp
minted inside that iteration (`getNonce`/`getTimestamp` run inside the
loop, before signing), and therefore, when the mints are distinct
(injective nonce or timestamp source), no attempt reuses the nonce or
timestamp of a previous attempt. -/
theorem c5_fresh_nonce_and_timestamp_per_attempt (keys : Keys)
    (outcome : Nat → FetchOutcome) (nonce ts : Nat → String) :
    ∃ n, ((twitterPostHandler keys outcome nonce ts).requests
        = (List.range n).map
            (fun j => mkOauthParams keys (ts (1 + j)) (nonce (1 + j))))
      ∧ (Function.Injective nonce →
          ((twitterPostHandler keys outcome nonce ts).requests.map
            (fun r => r.oauth_nonce)).Nodup)
      ∧ (Function.Injective ts →
          ((twitterPostHandler keys outcome nonce ts).requests.map
            (fun r => r.oauth_timestamp)).Nodup) := by
  obtain ⟨n, hn⟩ := twitterPostHandler_requests_spec keys outcome nonce ts
  refine ⟨n, hn, ?_, ?_⟩
  · intro hinj
    rw [hn, List.map_map]
    have : (fun r : OauthParams => r.oauth_nonce)
        ∘ (fun j => mkOauthParams keys (ts (1 + j)) (nonce (1 + j)))
        = fun j => nonce (1 + j) := rfl
    rw [this]
    exact (List.nodup_range n).map
      (fun a b h => by simpa using hinj h)
  · intro hinj
    rw [hn, List.map_map]
    have : (fun r : OauthParams => r.oauth_timestamp)
        ∘ (fun j => mkOauthParams keys (ts (1 + j)) (nonce (1 + j)))
        = fun j => ts (1 + j) := rfl
    rw [this]
    exact (List.nodup_range n).map
      (fun a b h => by simpa using hinj h)

/-- Witness for C5: an injective nonce source (distinct per mint) gives
pairwise-distinct nonces across the three attempts of a 503 run. -/
theorem c5_fresh_nonce_and_timestamp_per_attempt_witness :
    ((twitterPostHandler ⟨"ck", "cs", "at", "ts"⟩ (fun _ => .resp 503 true)
        (fun n => String.mk (List.replicate n (Char.ofNat 97)))
        (fun _ => "1700000000")).requests.map
          (fun r => r.oauth_nonce)).Nodup := by
  obtain ⟨n, _, h2, _⟩ := c5_fresh_nonce_and_timestamp_per_attempt
    ⟨"ck", "cs", "at", "ts"⟩ (fun _ => .resp 503 true)
    (fun n => String.mk (List.replicate n (Char.ofNat 97)))
    (fun _ => "1700000000")
  exact h2 (fun a b h => by
    have := congrArg (fun s : String => s.data.length) h
    simpa using this)

/-- C7 (amended): the main-process `twitter-post` handler requires all
four credentials non-empty before signing — a missing one makes it
throw `Missing Twitter Credentials` with no signing and no network
call; the browser-side `postToTwitter`, however, checks only
`twitterConsumerKey` and `twitterAccessToken` (falling back to the web
intent with no signing and no network call when one of those is
missing) and does attempt signing when a secret is empty. -/
theorem c7_credential_checks :
    (∀ (keys : Keys) (outcome : Nat → FetchOutcome) (nonce ts : Nat → String),
      (keys.consumerKey = "" ∨ keys.consumerSecret = ""
          ∨ keys.accessToken = "" ∨ keys.tokenSecret = "") →
        twitterPostHandler keys outcome nonce ts
          = ⟨[], [], .error "Missing Twitter Credentials"⟩)
    ∧ (∀ (cfg : RendererConfig) (auto : Bool) (txt : String) (fr : RFetch)
        (n t : String),
      (cfg.twitterConsumerKey = "" ∨ cfg.twitterAccessToken = "") →
        (postToTwitter cfg auto txt fr n t initialRenderTrace).sigAttempted = none
        ∧ (postToTwitter cfg auto txt fr n t initialRenderTrace).intents = 1) := by
  constructor
  · intro keys outcome nonce ts h
    simp [twitterPostHandler, h]
  · intro cfg auto txt fr n t h
    simp [postToTwitter, h, addLog, openWebIntent, initialRenderTrace]

/-- C7 counterexample: with a non-empty consumer key and access token
but an empty consumer secret, the browser-side `postToTwitter` still
attempts signing (and proceeds to the network call), refuting the claim
that every publish attempt requires all four credentials non-empty
before signing. -/
theorem c7_renderer_signs_with_empty_secret_counterexample :
    (postToTwitter ⟨"ck", "", "at", "ts"⟩ false "hello" (.resp 401 true none)
        "nonce1" "1700000000" initialRenderTrace).sigAttempted
      = some (mkOauthParams ⟨"ck", "", "at", "ts"⟩ "1700000000" "nonce1") := by
  decide

/-- Witness for C7 (amended) at concrete missing credentials. -/
theorem c7_credential_checks_witness :
    twitterPostHandler ⟨"ck", "", "at", "ts"⟩ (fun _ => .resp 200 true)
        (fun n => toString n) (fun _ => "t")
      = ⟨[], [], .error "Missing Twitter Credentials"⟩
    ∧ (postToTwitter ⟨"", "cs", "at", "ts"⟩ false "hello" (.resp 200 true (some "1"))
        "n" "t" initialRenderTrace).sigAttempted = none :=
  ⟨c7_credential_checks.1 ⟨"ck", "", "at", "ts"⟩ (fun _ => .resp 200 true)
      (fun n => toString n) (fun _ => "t") (by decide),
   (c7_credential_checks.2 ⟨"", "cs", "at", "ts"⟩ false "hello"
      (.resp 200 true (some "1")) "n" "t" (by decide)).1⟩

/-! ## C6, C10: the renderer cycle -/

/-- C6 (amended): when the publish step fails, `processCycle` does NOT
report the terminal `error` status: the failure is logged
(`Failed: …`) and, in manual mode, the web-intent fallback opens, but
the status still ends at `success` for a manual cycle (and `waiting`
when automated).  Only a generation failure yields the `error`
status. -/
theorem c6_publish_failure_still_success (cfg : RendererConfig)
    (genText : Option String) (fr : RFetch) (n t : String) (st : RenderTrace)
    (e : String)
    (hck : cfg.twitterConsumerKey ≠ "") (hat : cfg.twitterAccessToken ≠ "")
    (hgen : jsFalsy genText = false) (hf : postTryBody fr = .error e) :
    (processCycle cfg false genText fr n t st).status = "success"
    ∧ ("Twitter", "Failed: " ++ e) ∈ (processCycle cfg false genText fr n t st).logs
    ∧ (processCycle cfg false genText fr n t st).intents = st.intents + 1
    ∧ (processCycle cfg true genText fr n t st).status = "waiting"
    ∧ (∀ (auto : Bool) (g : Option String), jsFalsy g = true →
        (processCycle cfg auto g fr n t st).status = "error") := by
  have hcond : ¬(cfg.twitterConsumerKey = "" ∨ cfg.twitterAccessToken = "") := by
    simp [hck, hat]
  refine ⟨?_, ?_, ?_, ?_, ?_⟩
  · simp [processCycle, hgen, postToTwitter, if_neg hcond, hf,
      setStatus, addLog, openWebIntent]
  · simp [processCycle, hgen, postToTwitter, if_neg hcond, hf,
      setStatus, addLog, openWebIntent]
  · simp [processCycle, hgen, postToTwitter, if_neg hcond, hf,
      setStatus, addLog, openWebIntent]
  · simp [processCycle, hgen, postToTwitter, if_neg hcond, hf,
      setStatus, addLog, openWebIntent]
  · intro auto g hg
    simp [processCycle, hg, setStatus]

/-- C6 counterexample: a manually triggered cycle whose publish fails
(HTTP 500) ends with status `success` — refuting the claim that a
failed publish is mapped to a terminal `error` status and in particular
that a manual cycle with a failed publish does not end in `success`. -/
theorem c6_manual_failure_ends_success_counterexample :
    (processCycle ⟨"ck", "cs", "at", "ts"⟩ false (some "hello")
        (.resp 500 true none) "n" "t" initialRenderTrace).status = "success"
    ∧ ("Twitter", "Failed: Twitter API Error: 500")
        ∈ (processCycle ⟨"ck", "cs", "at", "ts"⟩ false (some "hello")
            (.resp 500 true none) "n" "t" initialRenderTrace).logs := by
  decide

/-- Witness for C6 (amended) at a concrete failed publish. -/
theorem c6_publish_failure_still_success_witness :
    (processCycle ⟨"ck", "cs", "at", "ts"⟩ false (some "hello")
        (.thrown "fetch failed") "n" "t" initialRenderTrace).status = "success"
    ∧ ("Twitter", "Failed: " ++ "fetch failed")
        ∈ (processCycle ⟨"ck", "cs", "at", "ts"⟩ false (some "hello")
            (.thrown "fetch failed") "n" "t" initialRenderTrace).logs :=
  ⟨(c6_publish_failure_still_success ⟨"ck", "cs", "at", "ts"⟩ (some "hello")
      (.thrown "fetch failed") "n" "t" initialRenderTrace "fetch failed"
      (by decide) (by decide) (by decide) (by decide)).1,
   (c6_publish_failure_still_success ⟨"ck", "cs", "at", "ts"⟩ (some "hello")
      (.thrown "fetch failed") "n" "t" initialRenderTrace "fetch failed"
      (by decide) (by decide) (by decide) (by decide)).2.1⟩

/-- C10 (implicit): `postToTwitter` never propagates a failure to its
caller — it is a total function into `RenderTrace` (the caller's
continuation always runs), and whenever the body of its `try` block
fails, the failure is converted into a `Failed: …` log entry, plus the
web-intent fallback exactly when not running under the scheduler; when
the early credential check fires instead, it logs and opens the intent
likewise. -/
theorem c10_postToTwitter_catches_everything (cfg : RendererConfig)
    (auto : Bool) (txt : String) (fr : RFetch) (n t : String)
    (st : RenderTrace) :
    (∀ e, postTryBody fr = .error e →
      cfg.twitterConsumerKey ≠ "" → cfg.twitterAccessToken ≠ "" →
        ("Twitter", "Failed: " ++ e) ∈ (postToTwitter cfg auto txt fr n t st).logs
        ∧ (auto = false →
            (postToTwitter cfg auto txt fr n t st).intents = st.intents + 1)
        ∧ (auto = true →
            (postToTwitter cfg auto txt fr n t st).intents = st.intents))
    ∧ ((cfg.twitterConsumerKey = "" ∨ cfg.twitterAccessToken = "") →
        ("Error", "Missing Twitter credentials. Opening Web Intent.")
            ∈ (postToTwitter cfg auto txt fr n t st).logs
        ∧ (postToTwitter cfg auto txt fr n t st).intents = st.intents + 1) := by
  constructor
  · intro e he hck hat
    have hcond : ¬(cfg.twitterConsumerKey = "" ∨ cfg.twitterAccessToken = "") := by
      simp [hck, hat]
    cases auto <;>
      simp [postToTwitter, if_neg hcond, he, addLog, openWebIntent, setStatus]
  · intro h
    simp [postToTwitter, h, addLog, openWebIntent]

/-- Witness for C10 at a concrete failing fetch. -/
theorem c10_postToTwitter_catches_everything_witness :
    ("Twitter", "Failed: " ++ "CORS/Auth Error. Check proxy/keys.")
      ∈ (postToTwitter ⟨"ck", "cs", "at", "ts"⟩ false "hello"
          (.resp 401 true none) "n" "t" initialRenderTrace).logs :=
  ((c10_postToTwitter_catches_everything ⟨"ck", "cs", "at", "ts"⟩ false "hello"
      (.resp 401 true none) "n" "t" initialRenderTrace).1
    "CORS/Auth Error. Check proxy/keys." (by decide) (by decide) (by decide)).1

/-! ## C8: the scheduler -/

/-- C8 (amended): `startAutomation` has no already-running guard — two
consecutive `start()` calls (with a non-empty topic list and no
intervening `stop()`) arm two independent 40-minute interval timers;
`timerRef` keeps only the second handle, so the first is leaked: even a
subsequent `stop()` leaves it armed.  (Only the UI prevents this, by
hiding the Start button while running.)  `stop()` before any `start()`
is safe and changes nothing. -/
theorem c8_start_twice_arms_two_intervals (topics : List String)
    (h : topics.length ≠ 0) :
    (mainTimers (startAutomation topics (startAutomation topics initialSchedState))).length = 2
    ∧ (startAutomation topics (startAutomation topics initialSchedState)).timerRef = some 3
    ∧ (1, TimerKind.main)
        ∈ (stopAutomation (startAutomation topics (startAutomation topics initialSchedState))).active
    ∧ stopAutomation initialSchedState = initialSchedState := by
  have hne : ¬topics = [] := by
    intro e
    subst e
    exact h rfl
  have h1 : startAutomation topics initialSchedState
      = { nextId := 2, active := [(0, TimerKind.countdown), (1, TimerKind.main)],
          timerRef := some 1, countdownRef := some 0, isAutomated := true } := by
    simp [startAutomation, h, hne, runAutomationCycleS, setIntervalT,
      initialSchedState, clearIntervalT]
  rw [h1]
  have h2 : startAutomation topics
      { nextId := 2, active := [(0, TimerKind.countdown), (1, TimerKind.main)],
        timerRef := some 1, countdownRef := some 0, isAutomated := true }
      = { nextId := 4,
          active := [(1, TimerKind.main), (2, TimerKind.countdown), (3, TimerKind.main)],
          timerRef := some 3, countdownRef := some 2, isAutomated := true } := by
    simp [startAutomation, h, hne, runAutomationCycleS, setIntervalT, clearIntervalT]
  rw [h2]
  refine ⟨by decide, by decide, by decide, by decide⟩

/-- C8 counterexample: after two consecutive `start()` calls, two main
interval timers are armed, refuting "exactly 1 repeating interval timer
is armed and no timer handle is leaked". -/
theorem c8_two_starts_two_timers_counterexample :
    (mainTimers (startAutomation ["AI"]
        (startAutomation ["AI"] initialSchedState))).length = 2
    ∧ (1, TimerKind.main) ∈ (stopAutomation (startAutomation ["AI"]
        (startAutomation ["AI"] initialSchedState))).active := by
  decide

/-- Witness for C8 (amended) at a concrete topic list. -/
theorem c8_start_twice_arms_two_intervals_witness :
    (mainTimers (startAutomation ["AI"]
        (startAutomation ["AI"] initialSchedState))).length = 2
    ∧ stopAutomation initialSchedState = initialSchedState :=
  ⟨(c8_start_twice_arms_two_intervals ["AI"] (by decide)).1,
   (c8_start_twice_arms_two_intervals ["AI"] (by decide)).2.2.2⟩

end TwitterAutomator
